import Mathlib

/-!
Verification of the agentic-orchestrator core against its specification.

Each definition is a shallow embedding of a function of the repository
(file and symbol given in its doc comment).  Python `float` prices are
modelled as rationals, timestamps as naturals, and effectful collaborators
(HTTP responses, the identity service, booking calls) as explicit
parameters.
-/

namespace Orchestrator

/-! ## Domain models — `carrier_service/domain/models.py` -/

/-- `ShipmentRequest` (`carrier_service/domain/models.py`). -/
structure ShipmentRequest where
  originPincode : String
  destPincode : String
  weightKg : ℚ
  description : String := "General Goods"
  lengthCm : Option ℚ := none
  widthCm : Option ℚ := none
  heightCm : Option ℚ := none
deriving DecidableEq

/-- `RateQuote` (`carrier_service/domain/models.py`).  `carrier` is a
`str`-valued enum in the source, modelled as a `String`. -/
structure RateQuote where
  carrier : String
  serviceName : String
  serviceCode : String
  price : ℚ
  currency : String := "USD"
  estimatedDeliveryDays : Nat
deriving DecidableEq

/-- `LabelResponse` (`carrier_service/domain/models.py`). -/
structure LabelResponse where
  trackingNumber : String
  labelUrl : String
  carrier : String
deriving DecidableEq

/-! ## CarrierSelector — `carrier_service/services/carrier_selector.py` -/

/-- `CarrierSelector.rank_rates`.  The strategy is a `str` enum
(`"cheapest" | "fastest" | "best_value"`); any other string falls into the
`else` branch.  Python's `sorted` is a stable sort on the given key, embedded
as `List.mergeSort` with the non-strict comparison on that key. -/
def rank_rates (rates : List RateQuote) (strategy : String) : List RateQuote :=
  if rates.isEmpty then []
  else if strategy = "cheapest" then
    rates.mergeSort (fun a b => a.price ≤ b.price)
  else if strategy = "fastest" then
    rates.mergeSort (fun a b => a.estimatedDeliveryDays ≤ b.estimatedDeliveryDays)
  else if strategy = "best_value" then
    rates.mergeSort (fun a b =>
      a.price * (6/10 : ℚ) + (a.estimatedDeliveryDays : ℚ) * 10 * (4/10 : ℚ) ≤
      b.price * (6/10 : ℚ) + (b.estimatedDeliveryDays : ℚ) * 10 * (4/10 : ℚ))
  else
    rates.mergeSort (fun a b => a.price ≤ b.price)

/-- `CarrierSelector.select_best`: `ranked[0] if ranked else None`. -/
def select_best (rates : List RateQuote) (strategy : String) : Option RateQuote :=
  (rank_rates rates strategy).head?

/-! ## CarrierOrchestrator — `carrier_service/services/carrier_orchestrator.py`

The fan-out is modelled by the list of per-adapter outcomes (in registry
order): each registered adapter either returns its quote list or raises. -/

/-- The inner `fetch_rates` closure of `CarrierOrchestrator.get_rates_all`:
an adapter exception is caught and turned into `[]`. -/
def fetch_rates (outcome : Except String (List RateQuote)) : List RateQuote :=
  match outcome with
  | .ok rates => rates
  | .error _ => []

/-- `CarrierOrchestrator.get_rates_all`: gather all adapter results and
extend `all_rates` with every list result. -/
def get_rates_all (outcomes : List (Except String (List RateQuote))) : List RateQuote :=
  (outcomes.map fetch_rates).flatten

/-- The quote lists of the adapters that succeeded (used to state fault
isolation). -/
def successful (o : Except String (List RateQuote)) : Option (List RateQuote) :=
  match o with
  | .ok rates => some rates
  | .error _ => none

/-- `CarrierOrchestrator.get_best_rates`: fan out, then rank. -/
def get_best_rates (outcomes : List (Except String (List RateQuote)))
    (strategy : String) : List RateQuote :=
  rank_rates (get_rates_all outcomes) strategy

/-- Failures of `CarrierOrchestrator`: `create_shipment_auto` raises
`ValueError("No carriers available for this shipment")` when ranking yields
nothing; the other constructors model factory/adapter failures. -/
inductive OrchError
  | noCarriersAvailable
  | carrierNotRegistered (carrier : String)
  | bookingError (msg : String)
deriving DecidableEq

/-- `CarrierOrchestrator.create_shipment_auto`: rank the fan-out results,
raise if empty, otherwise book the top-ranked provider (`book` stands for
`create_shipment` on the selected adapter). -/
def create_shipment_auto (outcomes : List (Except String (List RateQuote)))
    (request : ShipmentRequest) (strategy : String)
    (book : String → ShipmentRequest → String → Except OrchError LabelResponse) :
    Except OrchError (LabelResponse × RateQuote) :=
  match get_best_rates outcomes strategy with
  | [] => .error .noCarriersAvailable
  | best :: _ => (book best.carrier request best.serviceCode).map (fun label => (label, best))

/-! ## HITL approval gate — `agents/supervisor/hitl.py` -/

/-- `HITLInterrupt` dataclass.  Timestamps are modelled as naturals, the
free-form `context` dict as an association list. -/
structure HITLInterrupt where
  interruptId : String
  orderId : String
  reason : String
  requiredAction : String
  context : List (String × String)
  createdAt : Nat
  approvalStatus : String := "pending"
  approvedBy : Option String := none
  approvedAt : Option Nat := none
deriving DecidableEq

/-- The `HITLManager._pending_interrupts` dict: insertion-ordered map from
interrupt id to interrupt (Python dicts preserve insertion order). -/
abbrev HITLStore := List (String × HITLInterrupt)

/-- Gate failures: `approve`/`reject` raise `ValueError("Interrupt not
found: ...")` or `ValueError("Interrupt is not pending: ...")`. -/
inductive HITLError
  | notFound (interruptId : String)
  | invalidState (status : String)
deriving DecidableEq

/-- `HITLManager.create_interrupt`.  The fresh uuid-based id and the clock
are passed in (`new_id`, `now`); `identity_service` is the outcome of the
optional `create_approval_request` notification (`none` when no identity
service is configured).  The interrupt is stored in the pending dict before
the notification is awaited; an exception of the notification propagates. -/
def create_interrupt (store : HITLStore) (new_id order_id reason action : String)
    (context : List (String × String)) (now : Nat)
    (identity_service : Option (Except String Unit)) :
    HITLStore × Except String HITLInterrupt :=
  let interrupt : HITLInterrupt :=
    { interruptId := new_id, orderId := order_id, reason := reason,
      requiredAction := action, context := context, createdAt := now,
      approvalStatus := "pending", approvedBy := none, approvedAt := none }
  let store' := store ++ [(new_id, interrupt)]
  match identity_service with
  | some (.error e) => (store', .error e)
  | _ => (store', .ok interrupt)

/-- `HITLManager.get_interrupt_by_order`: scan the dict values in insertion
order and return the first interrupt of that order whose status is pending. -/
def get_interrupt_by_order (store : HITLStore) (order_id : String) :
    Option HITLInterrupt :=
  (store.map Prod.snd).find?
    (fun itr => itr.orderId == order_id && itr.approvalStatus == "pending")

/-- `HITLManager.approve`: `NotFound` on unknown id, `InvalidState` when the
status is not pending, otherwise set status/approver/timestamp in place. -/
def approve (store : HITLStore) (interrupt_id approved_by : String) (now : Nat) :
    Except HITLError (HITLStore × HITLInterrupt) :=
  match store.lookup interrupt_id with
  | none => .error (.notFound interrupt_id)
  | some interrupt =>
    if interrupt.approvalStatus ≠ "pending" then
      .error (.invalidState interrupt.approvalStatus)
    else
      let updated := { interrupt with
        approvalStatus := "approved",
        approvedBy := some approved_by,
        approvedAt := some now }
      .ok (store.map (fun p => if p.1 = interrupt_id then (p.1, updated) else p), updated)

/-- `HITLManager.reject`: `NotFound` on unknown id, then set
status/approver/timestamp in place — the source performs no pending-status
check on this path. -/
def reject (store : HITLStore) (interrupt_id rejected_by reason : String) (now : Nat) :
    Except HITLError (HITLStore × HITLInterrupt) :=
  match store.lookup interrupt_id with
  | none => .error (.notFound interrupt_id)
  | some interrupt =>
    let updated := { interrupt with
      approvalStatus := "rejected",
      approvedBy := some rejected_by,
      approvedAt := some now }
    .ok (store.map (fun p => if p.1 = interrupt_id then (p.1, updated) else p), updated)

/-! ## Aramex network client —
`carrier_service/services/carriers/implementations/aramex/client.py`

The transport is modelled by an oracle mapping the attempt index to that
attempt's outcome: an HTTP status code or a transport-level request error. -/

/-- Outcome of one HTTP attempt. -/
inductive AttemptOutcome
  | status (code : Nat)
  | transportError
deriving DecidableEq

/-- Result of `AramexClient._request_with_retry`: a returned response,
`AramexAuthError`, `response.raise_for_status()` on a final 5xx, or
`AramexClientError` after exhausted transport retries. -/
inductive ReqOutcome
  | ok (code : Nat)
  | authError
  | httpStatusError (code : Nat)
  | transportFailure
deriving DecidableEq

/-- Observable trace of `_request_with_retry`: final outcome, number of
attempts made, and the backoff delays slept between attempts (seconds). -/
structure ReqTrace where
  outcome : ReqOutcome
  attempts : Nat
  delays : List Nat
deriving DecidableEq

/-- The `for attempt in range(max_retries + 1)` loop body of
`AramexClient._request_with_retry`, from attempt index `attempt` with
`fuel` loop iterations left (`fuel = max_retries + 1 - attempt`; the
`fuel = 0` case is the dead `raise last_exception` line after the loop). -/
def request_from (max_retries : Nat) (oracle : Nat → AttemptOutcome) :
    Nat → Nat → ReqTrace
  | _, 0 => ⟨.transportFailure, 0, []⟩
  | attempt, fuel + 1 =>
    match oracle attempt with
    | .status code =>
      if code = 401 then ⟨.authError, 1, []⟩
      else if 500 ≤ code then
        if attempt < max_retries then
          let t := request_from max_retries oracle (attempt + 1) fuel
          ⟨t.outcome, t.attempts + 1, 2 ^ attempt :: t.delays⟩
        else ⟨.httpStatusError code, 1, []⟩
      else ⟨.ok code, 1, []⟩
    | .transportError =>
      if attempt < max_retries then
        let t := request_from max_retries oracle (attempt + 1) fuel
        ⟨t.outcome, t.attempts + 1, 2 ^ attempt :: t.delays⟩
      else ⟨.transportFailure, 1, []⟩

/-- `AramexClient._request_with_retry` (`config.max_retries` passed in). -/
def request_with_retry (max_retries : Nat) (oracle : Nat → AttemptOutcome) : ReqTrace :=
  request_from max_retries oracle 0 (max_retries + 1)

/-! ## Supervisor workflow graph — `agents/supervisor/graph.py` -/

/-- `NodeState`: the named steps of the orchestrator workflow. -/
inductive Node
  | supervisor
  | serviceability
  | rateNegotiation
  | carrierExecution
  | reflection
  | approvalGate
  | generalResponse
deriving DecidableEq

/-- A quote dict as carried in `GraphState.quotes`. -/
structure GQuote where
  carrier : String
  service : String
  price : ℚ
  estimatedDays : Nat
  quoteId : String
deriving DecidableEq

/-- A booking-confirmation dict as carried in
`GraphState.booking_confirmation`. -/
structure BookingResult where
  status : String
  bookingId : String
  trackingNumber : String
deriving DecidableEq

/-- `GraphState` (the fields read or written by the routing logic; the
`next_node` string is `none` for the `END` sentinel). -/
structure GState where
  requestId : String
  orderId : String
  customerId : String
  origin : String
  destination : String
  messages : List String
  isServiceable : Option Bool
  quotes : List GQuote
  selectedQuote : Option GQuote
  approvalStatus : Option String
  bookingConfirmation : Option BookingResult
  errors : List String
  nextNode : Option Node
deriving DecidableEq

/-- The `is_complete` computation of `OrchestratorGraph._reflection_node`:
the `if/elif` chain over booking confirmation, serviceability, pending
approval and quotes. -/
def reflection_is_complete (s : GState) : Bool :=
  if (match s.bookingConfirmation with
      | some b => b.status == "confirmed"
      | none => false) then true
  else if s.isServiceable = some false then true
  else if s.approvalStatus = some "pending" then true
  else if s.isServiceable = some true then true
  else if !s.quotes.isEmpty then true
  else false

/-- The state update returned by `OrchestratorGraph._reflection_node`:
route to `END` when complete, back to the supervisor step otherwise. -/
def reflection_update (s : GState) : GState :=
  { s with nextNode := if reflection_is_complete s then none else some .supervisor }

/-- `OrchestratorGraph._route_from_reflection`: follow the `next_node`
pointer written by the reflection step. -/
def route_from_reflection (s : GState) : Option Node :=
  s.nextNode

/-- Result of one workflow run. -/
inductive RunResult
  | completed (s : GState)
  | boundExceeded (s : GState)
deriving DecidableEq

/-- Modelled from the spec: the step-execution loop with its maximum hop
count lives in the external LangGraph runtime (`builder.compile()` /
`graph.ainvoke`), not under `src/`.  Per the spec, "the engine enforces a
configurable maximum hop count per run.  Exceeding it is a fatal
`WorkflowBoundExceeded` error, not a silent hang."  `step` maps the current
step and state to the merged state and the routed next step (`none` is the
terminal `END` sentinel); `hops` is the configured maximum hop count. -/
def runEngine (step : Node → GState → GState × Option Node) :
    Nat → Node → GState → RunResult
  | 0, _, s => .boundExceeded s
  | hops + 1, node, s =>
    match step node s with
    | (s', none) => .completed s'
    | (s', some next) => runEngine step hops next s'

/-- The initial `GraphState` built by `OrchestratorGraph.serve` (ids and the
prompt passed in; scalar result fields `None`, lists empty). -/
def initial_graph_state (request_id order_id customer_id origin destination
    prompt : String) : GState :=
  { requestId := request_id, orderId := order_id, customerId := customer_id,
    origin := origin, destination := destination, messages := [prompt],
    isServiceable := none, quotes := [], selectedQuote := none,
    approvalStatus := none, bookingConfirmation := none, errors := [],
    nextNode := none }

/-! ## Concrete example values used by witnesses and counterexamples -/

/-- A concrete quote (scenario values from the spec: carrier A, 50, 3 days). -/
def q_dhl : RateQuote :=
  { carrier := "dhl", serviceName := "Express", serviceCode := "EXP",
    price := 50, currency := "USD", estimatedDeliveryDays := 3 }

/-- A concrete quote (carrier B, 40, 5 days). -/
def q_mock : RateQuote :=
  { carrier := "mock", serviceName := "Standard", serviceCode := "STD",
    price := 40, currency := "USD", estimatedDeliveryDays := 5 }

/-- A concrete quote (third provider). -/
def q_post : RateQuote :=
  { carrier := "india_post", serviceName := "Economy", serviceCode := "ECO",
    price := 30, currency := "USD", estimatedDeliveryDays := 9 }

/-- A slow quote tied on price with `q_tie_fast`. -/
def q_tie_slow : RateQuote :=
  { carrier := "mock", serviceName := "Standard", serviceCode := "STD",
    price := 40, currency := "USD", estimatedDeliveryDays := 5 }

/-- A fast quote tied on price with `q_tie_slow`, smaller provider id. -/
def q_tie_fast : RateQuote :=
  { carrier := "dhl", serviceName := "Saver", serviceCode := "SAV",
    price := 40, currency := "USD", estimatedDeliveryDays := 2 }

/-- A concrete shipment request (spec scenario route). -/
def req0 : ShipmentRequest :=
  { originPincode := "400001", destPincode := "110001", weightKg := 5,
    description := "General Goods", lengthCm := none, widthCm := none,
    heightCm := none }

/-- A booking function that never succeeds (irrelevant to the empty-ranking
path, where it is not invoked). -/
def book0 : String → ShipmentRequest → String → Except OrchError LabelResponse :=
  fun carrier _ _ => .error (.carrierNotRegistered carrier)

/-- A concrete pending interrupt. -/
def itr_pending : HITLInterrupt :=
  { interruptId := "h1", orderId := "o1", reason := "Order value exceeds limit",
    requiredAction := "book_shipment", context := [], createdAt := 1 }

/-- A concrete already-approved interrupt. -/
def itr_decided : HITLInterrupt :=
  { interruptId := "h2", orderId := "o2", reason := "Order value exceeds limit",
    requiredAction := "book_shipment", context := [], createdAt := 1,
    approvalStatus := "approved", approvedBy := some "did:alice",
    approvedAt := some 2 }

/-- The older of two pending interrupts for order `o1`. -/
def itr6_old : HITLInterrupt :=
  { interruptId := "h1", orderId := "o1", reason := "first request",
    requiredAction := "book_shipment", context := [], createdAt := 1 }

/-- The more recent of two pending interrupts for order `o1`. -/
def itr6_new : HITLInterrupt :=
  { interruptId := "h2", orderId := "o1", reason := "second request",
    requiredAction := "book_shipment", context := [], createdAt := 2 }

/-- The pathological step function of spec property P6: its conditional edge
always routes back to the supervisor step, never to the terminal sentinel. -/
def pathological_step : Node → GState → GState × Option Node :=
  fun _ s => (s, some .supervisor)

/-- A concrete initial state. -/
def gstate0 : GState :=
  initial_graph_state "r1" "o1" "c1" "400001" "110001" "book my shipment"

/-! ## Theorems -/

/-- Helper: `rank_rates` permutes its input under every strategy (each
branch is a `mergeSort`). -/
theorem rank_rates_perm (rates : List RateQuote) (strategy : String) :
    (rank_rates rates strategy).Perm rates := by
  unfold rank_rates
  split
  · next h => simp [List.isEmpty_iff.mp h]
  · split
    · exact List.mergeSort_perm ..
    · split
      · exact List.mergeSort_perm ..
      · split
        · exact List.mergeSort_perm ..
        · exact List.mergeSort_perm ..

/-- Helper: for the `"cheapest"` strategy, `rank_rates` is exactly the
stable merge sort on price. -/
theorem rank_rates_cheapest_eq (rates : List RateQuote) :
    rank_rates rates "cheapest" = rates.mergeSort (fun a b => a.price ≤ b.price) := by
  unfold rank_rates
  split
  · next h => simp [List.isEmpty_iff.mp h]
  · simp

/-- Claim C3 counterexample: two quotes tied on price, the slower one first
in the input.  The code keeps the input order (Python's `sorted` is stable
on the price key alone), so the tie is NOT broken by the shorter delivery
estimate, and the output order of tied quotes depends on their input order
(ranking the two input orders gives two different outputs). -/
theorem c3_cheapest_counterexample :
    q_tie_slow.price = q_tie_fast.price ∧
    q_tie_fast.estimatedDeliveryDays < q_tie_slow.estimatedDeliveryDays ∧
    rank_rates [q_tie_slow, q_tie_fast] "cheapest" = [q_tie_slow, q_tie_fast] ∧
    rank_rates [q_tie_fast, q_tie_slow] "cheapest" = [q_tie_fast, q_tie_slow] := by
  refine ⟨rfl, by norm_num [q_tie_slow, q_tie_fast], ?_, ?_⟩
  · rw [rank_rates_cheapest_eq]
    exact List.mergeSort_of_sorted (by simp [q_tie_slow, q_tie_fast])
  · rw [rank_rates_cheapest_eq]
    exact List.mergeSort_of_sorted (by simp [q_tie_slow, q_tie_fast])

/-- Claim C3 (amended): `rank_rates(quotes, "cheapest")` orders the quotes
by non-decreasing price and is a permutation of the input; price ties are
NOT broken by delivery estimate or provider id — the sort is stable, so
tied quotes keep their relative input order (any price-respecting ordered
pair of the input survives in the output). -/
theorem c3_cheapest_stable_sort (rates : List RateQuote) :
    (rank_rates rates "cheapest").Pairwise (fun a b => a.price ≤ b.price) ∧
    (rank_rates rates "cheapest").Perm rates ∧
    (∀ a b : RateQuote, a.price ≤ b.price → [a, b].Sublist rates →
      [a, b].Sublist (rank_rates rates "cheapest")) := by
  have htrans : ∀ a b c : RateQuote,
      (decide (a.price ≤ b.price)) → (decide (b.price ≤ c.price)) →
      (decide (a.price ≤ c.price)) := by
    intro a b c hab hbc
    simp only [decide_eq_true_eq] at *
    exact le_trans hab hbc
  have htotal : ∀ a b : RateQuote,
      (decide (a.price ≤ b.price)) || (decide (b.price ≤ a.price)) := by
    intro a b
    simpa using le_total a.price b.price
  refine ⟨?_, rank_rates_perm rates "cheapest", ?_⟩
  · rw [rank_rates_cheapest_eq]
    have := List.sorted_mergeSort htrans htotal rates
    exact this.imp (by simp)
  · intro a b hab hsub
    rw [rank_rates_cheapest_eq]
    exact List.pair_sublist_mergeSort htrans htotal (by simpa using hab) hsub

/-- Witness for C3 (amended): the tied pair `[q_tie_slow, q_tie_fast]`
survives in the ranked output of that same input. -/
theorem c3_cheapest_stable_sort_witness :
    q_tie_slow.price ≤ q_tie_fast.price ∧
    [q_tie_slow, q_tie_fast].Sublist [q_tie_slow, q_tie_fast] ∧
    [q_tie_slow, q_tie_fast].Sublist (rank_rates [q_tie_slow, q_tie_fast] "cheapest") :=
  ⟨le_refl _, List.Sublist.refl _,
    (c3_cheapest_stable_sort [q_tie_slow, q_tie_fast]).2.2 q_tie_slow q_tie_fast
      (le_refl _) (List.Sublist.refl _)⟩

/-- Claim C9: `select_best([], s)` is none, and for non-empty quote lists
`select_best(quotes, s)` is exactly the first element of
`rank_rates(quotes, s)`. -/
theorem c9_select_best_head (rates : List RateQuote) (strategy : String) :
    select_best [] strategy = none ∧
    (rates ≠ [] → ∃ q rest, rank_rates rates strategy = q :: rest ∧
      select_best rates strategy = some q) := by
  constructor
  · rfl
  · intro h
    have hp := rank_rates_perm rates strategy
    have hlen : (rank_rates rates strategy).length = rates.length := hp.length_eq
    cases hq : rank_rates rates strategy with
    | nil =>
      exfalso
      apply h
      rw [hq] at hlen
      exact List.length_eq_zero.mp hlen.symm
    | cons q rest =>
      exact ⟨q, rest, rfl, by simp [select_best, hq]⟩

/-- Witness for C9 at a concrete non-empty input. -/
theorem c9_select_best_head_witness :
    ([q_dhl, q_mock] : List RateQuote) ≠ [] ∧
    ∃ q rest, rank_rates [q_dhl, q_mock] "cheapest" = q :: rest ∧
      select_best [q_dhl, q_mock] "cheapest" = some q :=
  ⟨by simp, (c9_select_best_head [q_dhl, q_mock] "cheapest").2 (by simp)⟩

/-- Claim C10: under every strategy string (the three recognized values and
any unrecognized one, which falls to the default branch), `rank_rates`
returns a permutation of its input — same multiset, nothing dropped,
duplicated or altered.  (The source returns a fresh list built by `sorted`;
the input list itself is not mutated.) -/
theorem c10_rank_rates_permutation (rates : List RateQuote) (strategy : String) :
    (rank_rates rates strategy).Perm rates :=
  rank_rates_perm rates strategy

/-- Helper: the fan-out result is exactly the flattened lists of the
successful adapters (a failed adapter contributes `[]`, which vanishes). -/
theorem get_rates_all_eq (outcomes : List (Except String (List RateQuote))) :
    get_rates_all outcomes = (outcomes.filterMap successful).flatten := by
  induction outcomes with
  | nil => rfl
  | cons o rest ih =>
    cases o with
    | ok rates => simp [get_rates_all, fetch_rates, successful, List.filterMap_cons] at ih ⊢
                  exact ih
    | error e => simpa [get_rates_all, fetch_rates, successful, List.filterMap_cons] using ih

/-- Claim C4: when one or more registered adapters raise from their
rate-quote call, `get_rates_all` still returns exactly the flattened union
of the successful adapters' quote lists, whose length is the sum of their
individual counts — the batch is never aborted by a single failure. -/
theorem c4_fault_isolation (outcomes : List (Except String (List RateQuote)))
    (h : ∃ o ∈ outcomes, successful o = none) :
    get_rates_all outcomes = (outcomes.filterMap successful).flatten ∧
    (get_rates_all outcomes).length =
      ((outcomes.filterMap successful).map List.length).sum := by
  refine ⟨get_rates_all_eq outcomes, ?_⟩
  rw [get_rates_all_eq outcomes]
  simp [List.length_flatten]

/-- Witness for C4: three registered adapters, the middle one failing; the
result is the union of the other two's quotes (2 + 1 = 3 quotes). -/
theorem c4_fault_isolation_witness :
    (∃ o ∈ ([.ok [q_dhl, q_mock], .error "boom", .ok [q_post]] :
        List (Except String (List RateQuote))), successful o = none) ∧
    (get_rates_all [.ok [q_dhl, q_mock], .error "boom", .ok [q_post]] =
      (([.ok [q_dhl, q_mock], .error "boom", .ok [q_post]] :
        List (Except String (List RateQuote))).filterMap successful).flatten ∧
     (get_rates_all [.ok [q_dhl, q_mock], .error "boom", .ok [q_post]]).length =
      ((([.ok [q_dhl, q_mock], .error "boom", .ok [q_post]] :
        List (Except String (List RateQuote))).filterMap successful).map
          List.length).sum) :=
  ⟨⟨.error "boom", by simp, rfl⟩,
    c4_fault_isolation _ ⟨.error "boom", by simp, rfl⟩⟩

/-- Claim C7: whenever ranking the fan-out results yields an empty list,
`create_shipment_auto` fails with the no-provider error (the source's
`ValueError("No carriers available for this shipment")`) instead of
returning an empty success; with zero registered adapters the ranking is
empty. -/
theorem c7_no_provider (outcomes : List (Except String (List RateQuote)))
    (request : ShipmentRequest) (strategy : String)
    (book : String → ShipmentRequest → String → Except OrchError LabelResponse)
    (h : get_best_rates outcomes strategy = []) :
    create_shipment_auto outcomes request strategy book =
      .error .noCarriersAvailable ∧
    get_best_rates [] strategy = [] := by
  constructor
  · unfold create_shipment_auto
    rw [h]
  · rfl

/-- Witness for C7: a single failing adapter yields an empty ranking and an
explicit no-provider failure. -/
theorem c7_no_provider_witness :
    get_best_rates [.error "boom"] "cheapest" = [] ∧
    create_shipment_auto [.error "boom"] req0 "cheapest" book0 =
      .error .noCarriersAvailable :=
  ⟨rfl, (c7_no_provider [.error "boom"] req0 "cheapest" book0 rfl).1⟩

/-- Claim C2 counterexample: `reject` on an already-approved interrupt does
NOT fail with `InvalidState` — the source's `reject` has no pending-status
check; it overwrites the decision and succeeds. -/
theorem c2_counterexample :
    itr_decided.approvalStatus ≠ "pending" ∧
    reject [("h2", itr_decided)] "h2" "did:bob" "changed plan" 7 ≠
      .error (.invalidState itr_decided.approvalStatus) ∧
    reject [("h2", itr_decided)] "h2" "did:bob" "changed plan" 7 = .ok
      ([("h2", { itr_decided with
                 approvalStatus := "rejected",
                 approvedBy := some "did:bob",
                 approvedAt := some 7 })],
       { itr_decided with
         approvalStatus := "rejected",
         approvedBy := some "did:bob",
         approvedAt := some 7 }) := by
  refine ⟨by simp [itr_decided], ?_, ?_⟩
  · simp [reject, itr_decided]
  · simp [reject]

/-- Claim C2 (amended): `approve` fails `NotFound` on an unknown id, fails
`InvalidState` on a non-pending interrupt, and on success sets
status/approver/decision-timestamp exactly once; `reject` fails `NotFound`
on an unknown id but performs NO pending-status check — it sets
status/approver/timestamp unconditionally, even on an already-decided
interrupt. -/
theorem c2_gate_operations (store : HITLStore) (id approver reason : String)
    (now : Nat) :
    (store.lookup id = none →
      approve store id approver now = .error (.notFound id) ∧
      reject store id approver reason now = .error (.notFound id)) ∧
    (∀ itr : HITLInterrupt, store.lookup id = some itr →
      (itr.approvalStatus ≠ "pending" →
        approve store id approver now = .error (.invalidState itr.approvalStatus)) ∧
      (itr.approvalStatus = "pending" →
        approve store id approver now = .ok
          (store.map (fun p => if p.1 = id then (p.1,
              { itr with
                approvalStatus := "approved",
                approvedBy := some approver,
                approvedAt := some now }) else p),
           { itr with
             approvalStatus := "approved",
             approvedBy := some approver,
             approvedAt := some now })) ∧
      reject store id approver reason now = .ok
        (store.map (fun p => if p.1 = id then (p.1,
            { itr with
              approvalStatus := "rejected",
              approvedBy := some approver,
              approvedAt := some now }) else p),
         { itr with
           approvalStatus := "rejected",
           approvedBy := some approver,
           approvedAt := some now })) := by
  constructor
  · intro h
    exact ⟨by simp [approve, h], by simp [reject, h]⟩
  · intro itr h
    refine ⟨?_, ?_, ?_⟩
    · intro hs
      simp [approve, h, hs]
    · intro hs
      simp [approve, h, hs]
    · simp [reject, h]

/-- Witness for C2 (amended) at a concrete store with one pending and one
unknown id. -/
theorem c2_gate_operations_witness :
    ([("h1", itr_pending)] : HITLStore).lookup "h1" = some itr_pending ∧
    itr_pending.approvalStatus = "pending" ∧
    approve [("h1", itr_pending)] "h1" "did:alice" 5 = .ok
      ([("h1", { itr_pending with
                 approvalStatus := "approved",
                 approvedBy := some "did:alice",
                 approvedAt := some 5 })],
       { itr_pending with
         approvalStatus := "approved",
         approvedBy := some "did:alice",
         approvedAt := some 5 }) ∧
    approve [("h1", itr_pending)] "nope" "did:alice" 5 =
      .error (.notFound "nope") := by
  refine ⟨rfl, rfl, ?_, ?_⟩
  · have := (((c2_gate_operations [("h1", itr_pending)] "h1" "did:alice" "" 5).2
      itr_pending rfl).2.1) rfl
    simpa using this
  · exact ((c2_gate_operations [("h1", itr_pending)] "nope" "did:alice" "" 5).1
      (by simp [itr_pending])).1

/-- Claim C5 counterexample: when the configured identity-service
notification fails, `create_interrupt` does NOT return the interrupt
successfully — there is no try/except around the notification, so the
failure propagates (even though the interrupt was already stored). -/
theorem c5_counterexample :
    (create_interrupt [] "h9" "o9" "high value" "book_shipment" [] 3
      (some (.error "identity service down"))).2 = .error "identity service down" ∧
    ((create_interrupt [] "h9" "o9" "high value" "book_shipment" [] 3
      (some (.error "identity service down"))).1).lookup "h9" =
      some { interruptId := "h9", orderId := "o9", reason := "high value",
             requiredAction := "book_shipment", context := [], createdAt := 3,
             approvalStatus := "pending", approvedBy := none,
             approvedAt := none } := by
  exact ⟨rfl, rfl⟩

/-- Claim C5 (amended): the interrupt is appended to the pending set before
the identity-service notification, so a notification failure leaves it
stored; but the failure is not absorbed — `create_interrupt` propagates the
notification error instead of returning the interrupt. -/
theorem c5_notification_failure (store : HITLStore)
    (new_id order_id reason action : String) (context : List (String × String))
    (now : Nat) (e : String) :
    (create_interrupt store new_id order_id reason action context now
        (some (.error e))).1 =
      store ++ [(new_id,
        { interruptId := new_id, orderId := order_id, reason := reason,
          requiredAction := action, context := context, createdAt := now,
          approvalStatus := "pending", approvedBy := none, approvedAt := none })] ∧
    (create_interrupt store new_id order_id reason action context now
        (some (.error e))).2 = .error e := by
  exact ⟨rfl, rfl⟩

/-- Helper: `find?` returns the head of the first match. -/
theorem find_first_match {α : Type} (p : α → Bool) :
    ∀ (l1 : List α) (a : α) (l2 : List α), p a = true →
      (∀ j ∈ l1, p j = false) → (l1 ++ a :: l2).find? p = some a := by
  intro l1
  induction l1 with
  | nil =>
    intro a l2 ha _
    simp [List.find?, ha]
  | cons j js ih =>
    intro a l2 ha hnone
    have hj : p j = false := hnone j (by simp)
    simp only [List.cons_append, List.find?, hj]
    exact ih a l2 ha (fun x hx => hnone x (by simp [hx]))

/-- Claim C6 counterexample: with two pending interrupts for order `o1`,
stored in creation order, `get_interrupt_by_order` returns the FIRST-stored
(oldest) one, not the most recent. -/
theorem c6_counterexample :
    get_interrupt_by_order [("h1", itr6_old), ("h2", itr6_new)] "o1" =
      some itr6_old ∧
    itr6_old ≠ itr6_new ∧
    itr6_new.orderId = "o1" ∧
    itr6_new.approvalStatus = "pending" ∧
    itr6_old.createdAt < itr6_new.createdAt := by
  refine ⟨rfl, by simp [itr6_old, itr6_new], rfl, rfl, by simp [itr6_old, itr6_new]⟩

/-- Claim C6 (amended): `get_interrupt_by_order` scans the pending dict in
insertion order and returns the FIRST stored pending interrupt for that
order — the oldest, not the most recent; it returns none when the order has
no pending interrupt. -/
theorem c6_first_pending (store : HITLStore) (order_id : String) :
    ((∀ itr ∈ store.map Prod.snd,
        ¬(itr.orderId = order_id ∧ itr.approvalStatus = "pending")) →
      get_interrupt_by_order store order_id = none) ∧
    (∀ (l1 : List HITLInterrupt) (itr : HITLInterrupt) (l2 : List HITLInterrupt),
      store.map Prod.snd = l1 ++ itr :: l2 →
      itr.orderId = order_id → itr.approvalStatus = "pending" →
      (∀ j ∈ l1, ¬(j.orderId = order_id ∧ j.approvalStatus = "pending")) →
      get_interrupt_by_order store order_id = some itr) := by
  constructor
  · intro h
    unfold get_interrupt_by_order
    rw [List.find?_eq_none]
    intro x hx
    have := h x hx
    simpa using this
  · intro l1 itr l2 hsplit h1 h2 hnone
    unfold get_interrupt_by_order
    rw [hsplit]
    apply find_first_match
    · simp [h1, h2]
    · intro j hj
      have := hnone j hj
      simpa using this

/-- Witness for C6 (amended) at a concrete two-interrupt store. -/
theorem c6_first_pending_witness :
    ([("h1", itr6_old), ("h2", itr6_new)] : HITLStore).map Prod.snd =
      [] ++ itr6_old :: [itr6_new] ∧
    itr6_old.orderId = "o1" ∧ itr6_old.approvalStatus = "pending" ∧
    get_interrupt_by_order [("h1", itr6_old), ("h2", itr6_new)] "o1" =
      some itr6_old :=
  ⟨rfl, rfl, rfl,
    (c6_first_pending [("h1", itr6_old), ("h2", itr6_new)] "o1").2
      [] itr6_old [itr6_new] rfl rfl rfl (by simp)⟩

/-- Helper: one unrolling of the retry loop. -/
theorem request_from_step (m : Nat) (o : Nat → AttemptOutcome) (a f : Nat) :
    request_from m o a (f + 1) =
      match o a with
      | .status code =>
        if code = 401 then ⟨.authError, 1, []⟩
        else if 500 ≤ code then
          if a < m then
            let t := request_from m o (a + 1) f
            ⟨t.outcome, t.attempts + 1, 2 ^ a :: t.delays⟩
          else ⟨.httpStatusError code, 1, []⟩
        else ⟨.ok code, 1, []⟩
      | .transportError =>
        if a < m then
          let t := request_from m o (a + 1) f
          ⟨t.outcome, t.attempts + 1, 2 ^ a :: t.delays⟩
        else ⟨.transportFailure, 1, []⟩ := rfl

/-- Helper: the retry loop makes at most `fuel` attempts. -/
theorem request_from_attempts_le (m : Nat) (o : Nat → AttemptOutcome) :
    ∀ (fuel attempt : Nat), (request_from m o attempt fuel).attempts ≤ fuel := by
  intro fuel
  induction fuel with
  | zero =>
    intro a
    simp [request_from]
  | succ f ih =>
    intro a
    cases ho : o a with
    | status code =>
      rw [request_from_step, ho]
      dsimp only
      split
      · simp
      · split
        · split
          · have := ih (a + 1)
            dsimp only
            omega
          · simp
        · simp
    | transportError =>
      rw [request_from_step, ho]
      dsimp only
      split
      · have := ih (a + 1)
        dsimp only
        omega
      · simp

/-- Helper: when every attempt yields HTTP 500, the loop from attempt `a`
with `k` retries remaining makes `k + 1` attempts, sleeping
`2^a, 2^(a+1), ...` between them, and ends in `raise_for_status`. -/
theorem request_from_all_5xx (m : Nat) (o : Nat → AttemptOutcome)
    (h : ∀ i, o i = .status 500) :
    ∀ (k a : Nat), a + k = m →
      request_from m o a (k + 1) =
        ⟨.httpStatusError 500, k + 1, (List.range' a k).map (2 ^ ·)⟩ := by
  intro k
  induction k with
  | zero =>
    intro a ha
    have hm : ¬(a < m) := by omega
    simp [request_from, h a, hm]
  | succ k ih =>
    intro a ha
    have hlt : a < m := by omega
    have hrec := ih (a + 1) (by omega)
    rw [request_from_step, h a]
    dsimp only
    rw [if_neg (by omega), if_pos (by omega), if_pos hlt, hrec]
    simp [List.range']

/-- Claim C8: the Aramex client makes at most `max_retries + 1` attempts;
an unbroken run of 5xx responses is retried after exponentially doubling
backoff delays (`2^0, 2^1, ...` seconds) until the bound and then fails via
`raise_for_status`; an HTTP 401 raises `AramexAuthError` immediately on the
first attempt, with no retry and no backoff sleep. -/
theorem c8_retry_policy (m : Nat) (oracle : Nat → AttemptOutcome) :
    (request_with_retry m oracle).attempts ≤ m + 1 ∧
    (oracle 0 = .status 401 →
      request_with_retry m oracle = ⟨.authError, 1, []⟩) ∧
    ((∀ i, oracle i = .status 500) →
      request_with_retry m oracle =
        ⟨.httpStatusError 500, m + 1, (List.range m).map (2 ^ ·)⟩) := by
  refine ⟨request_from_attempts_le m oracle (m + 1) 0, ?_, ?_⟩
  · intro h
    simp [request_with_retry, request_from, h]
  · intro h
    have := request_from_all_5xx m oracle h m 0 (by omega)
    simpa [request_with_retry, List.range_eq_range'] using this

/-- Witness for C8: with `max_retries = 2`, a 401 on the first attempt
raises at once, and a server stuck on 500 gives 3 attempts with backoff
delays of 1s and 2s. -/
theorem c8_retry_policy_witness :
    (fun _ => AttemptOutcome.status 401) 0 = AttemptOutcome.status 401 ∧
    request_with_retry 2 (fun _ => .status 401) = ⟨.authError, 1, []⟩ ∧
    request_with_retry 2 (fun _ => .status 500) =
      ⟨.httpStatusError 500, 3, [1, 2]⟩ := by
  refine ⟨rfl, (c8_retry_policy 2 _).2.1 rfl, ?_⟩
  have := (c8_retry_policy 2 (fun _ => .status 500)).2.2 (fun _ => rfl)
  simpa [List.range] using this

/-- Claim C1: when the conditional routing keeps returning a non-terminal
step, the engine run ends in the bound-exceeded result (the fatal
`WorkflowBoundExceeded`) once the configured maximum hop count is consumed
— `runEngine` is total, so it can never loop forever or hang; and the
source's reflection step with an unmet completion condition is exactly such
a routing: it routes back to the supervisor step, never to the terminal
sentinel. -/
theorem c1_bound_exceeded (step : Node → GState → GState × Option Node)
    (h : ∀ (nd : Node) (st : GState), (step nd st).2 ≠ none) :
    (∀ (hops : Nat) (nd : Node) (s : GState),
      ∃ s', runEngine step hops nd s = .boundExceeded s') ∧
    (∀ st : GState, reflection_is_complete st = false →
      route_from_reflection (reflection_update st) = some Node.supervisor) := by
  constructor
  · intro hops
    induction hops with
    | zero =>
      intro nd s
      exact ⟨s, rfl⟩
    | succ n ih =>
      intro nd s
      have h2 := h nd s
      cases hstep : step nd s with
      | mk s' o =>
        rw [hstep] at h2
        cases o with
        | none => exact absurd rfl h2
        | some next =>
          have ⟨s'', hs''⟩ := ih next s'
          refine ⟨s'', ?_⟩
          unfold runEngine
          rw [hstep]
          exact hs''
  · intro st hst
    simp [route_from_reflection, reflection_update, hst]

/-- Witness for C1: the pathological P6 self-loop from the concrete initial
state exceeds a hop limit of 25, and the initial state's unmet completion
condition routes the reflection step back to the supervisor. -/
theorem c1_bound_exceeded_witness :
    (∀ (nd : Node) (st : GState), (pathological_step nd st).2 ≠ none) ∧
    (∃ s', runEngine pathological_step 25 .supervisor gstate0 =
      .boundExceeded s') ∧
    route_from_reflection (reflection_update gstate0) = some Node.supervisor :=
  ⟨fun _ _ => by simp [pathological_step],
    (c1_bound_exceeded pathological_step
      (fun _ _ => by simp [pathological_step])).1 25 .supervisor gstate0,
    (c1_bound_exceeded pathological_step
      (fun _ _ => by simp [pathological_step])).2 gstate0 rfl⟩

end Orchestrator
